import Mathlib

/-!
Verification development for the eyewear matching-and-attribute-extraction
pipeline implemented in `src/backend/match.py`.

Modelling choices (shallow embedding):

* An image is represented by the pixel data the pipeline actually inspects
  after the external PIL resizing operations: `ImgData.pixels` is the
  flattened 100x100 resize of the image and `ImgData.centerPixels` the
  flattened 50x50 resize of its central crop (`extract_glasses_properties`
  reads exactly these two arrays).  Pixel channels are rationals; real
  images have integer channels in [0, 255], which theorems assume where
  they need it.
* A command-line image path is an `ImagePath`: a `loadable` flag (whether
  `Image.open` succeeds for that path) together with the `ImgData` it
  decodes to.
* The CLIP model, the embedding cache and the directory listing are
  injected capabilities; an `Env` records whether each is available and
  what it yields (zero-shot scores per image, cached filenames, the raw
  cosine-similarity vector `sims`, the shape-analysis booleans of the
  first uploaded image).  The numeric outputs of the CLIP model are taken
  as given data; the algorithmic content downstream of them (validation
  decision, keyword boosting, argmax selection, fallback control flow,
  colour statistics) is embedded faithfully.
* `np.std` takes a floating-point square root.  The square-root routine is
  passed in as a parameter `sq : ℚ → ℚ`; every theorem below holds for an
  arbitrary square root, so nothing depends on its numerics.
* Python `round(x, n)` is modelled as rounding `x * 10^n` to the nearest
  integer; the claims checked here never depend on tie-breaking behaviour.
* Result dictionaries are modelled as association lists of field name to
  `Value`, in the construction order of the source's dict literals.
-/

/-- RGB pixel with rational channels (uint8 data embeds as 0..255). -/
structure RGB where
  r : ℚ
  g : ℚ
  b : ℚ
deriving DecidableEq

/-- Pixel data of one decoded image, after the two resizes the extractor
performs: the 100x100 resize of the full image and the 50x50 resize of the
central crop (middle 50% in each dimension). -/
structure ImgData where
  pixels : List RGB
  centerPixels : List RGB
deriving DecidableEq

/-- One command-line image path: whether `Image.open` succeeds on it, and
the pixel data it decodes to when it does. -/
structure ImagePath where
  loadable : Bool
  data : ImgData
deriving DecidableEq

/-- JSON-ish value for the fields of a result dictionary. -/
inductive Value where
  | s (v : String)
  | q (v : ℚ)
  | b (v : Bool)
  | null
deriving DecidableEq

/-- Mean of a list of rationals, `np.mean` (0 on the empty list, which the
source never hits on the paths modelled here). -/
def npMean (xs : List ℚ) : ℚ := xs.sum / xs.length

/-- Population variance, `np.var` / the square of `np.std`. -/
def npVar (xs : List ℚ) : ℚ := npMean (xs.map (fun x => (x - npMean xs) ^ 2))

/-- Median of a list of rationals, `np.median`: middle element of the
sorted list for odd length, average of the two middle elements for even
length. -/
def npMedian (xs : List ℚ) : ℚ :=
  let s := List.insertionSort (· ≤ ·) xs
  let n := s.length
  if n % 2 = 1 then s.getD (n / 2) 0
  else (s.getD (n / 2 - 1) 0 + s.getD (n / 2) 0) / 2

/-- Truncation toward zero, `numpy`'s `astype(int)` / C-style cast.  All
values cast in the source are nonnegative, where this agrees with floor. -/
def npToInt (q : ℚ) : ℤ := q.num.tdiv q.den

/-- Python `round(x, 2)`. -/
def round2 (q : ℚ) : ℚ := (round (q * 100) : ℤ) / 100

/-- Python `round(x, 3)`. -/
def round3 (q : ℚ) : ℚ := (round (q * 1000) : ℤ) / 1000

/-- Per-pixel luminance, `np.mean(pixels_flat, axis=1)` for one pixel. -/
def brightness (p : RGB) : ℚ := (p.r + p.g + p.b) / 3

/-- Per-channel mean of a pixel list, `np.mean(..., axis=0)`. -/
def chanMean (ps : List RGB) : RGB :=
  ⟨npMean (ps.map RGB.r), npMean (ps.map RGB.g), npMean (ps.map RGB.b)⟩

/-- Per-channel median of a pixel list, `np.median(..., axis=0)`. -/
def chanMedian (ps : List RGB) : RGB :=
  ⟨npMedian (ps.map RGB.r), npMedian (ps.map RGB.g), npMedian (ps.map RGB.b)⟩

/-- Per-channel truncation to integer values, `astype(int)` on a colour. -/
def truncRGB (p : RGB) : RGB := ⟨(npToInt p.r : ℚ), (npToInt p.g : ℚ), (npToInt p.b : ℚ)⟩

/-- Lowercase hex digit for a value below 16. -/
def hexDigitChar (n : ℕ) : Char :=
  if n < 10 then Char.ofNat (48 + n) else Char.ofNat (87 + n)

/-- Python format spec `02x` for a channel value; two lowercase hex digits
(channel statistics lie in 0..255, where width 2 is exact). -/
def fmt02x (n : ℕ) : String := ⟨[hexDigitChar (n / 16 % 16), hexDigitChar (n % 16)]⟩

/-- Model of `f"#{r:02x}{g:02x}{b:02x}"` applied to `astype(int)` of a
colour (channels are nonnegative on the source's domain; `Int.toNat`
realises that). -/
def hexColor (p : RGB) : String :=
  "#" ++ fmt02x (npToInt p.r).toNat ++ fmt02x (npToInt p.g).toNat ++ fmt02x (npToInt p.b).toNat

/-- Saturation component of `colorsys.rgb_to_hsv` on channels scaled to
[0, 1]. -/
def hsvS (r g b : ℚ) : ℚ :=
  let maxc := max r (max g b)
  let minc := min r (min g b)
  if minc = maxc then 0 else (maxc - minc) / maxc

/-- ColorProfile: the six property fields every non-rejected result dict
spreads in, in source order (`lensColor`, `frameColor`, `tintOpacity`,
`frameScale`, `frameMaterial`, `frameMetalness`). -/
structure Profile where
  lensColor : String
  frameColor : String
  tintOpacity : ℚ
  frameScale : ℚ
  frameMaterial : String
  frameMetalness : ℚ
deriving DecidableEq

/-- The fixed default profile, returned whole when PIL/numpy are
unavailable and used field-by-field when no pixels qualify. -/
def defaultProfile : Profile :=
  ⟨"#3b82f6", "#1a1a1a", 0.5, 1.0, "plastic", 0.1⟩

/-- Profile fields as result-dictionary entries, in source order. -/
def profileFields (p : Profile) : List (String × Value) :=
  [("lensColor", .s p.lensColor), ("frameColor", .s p.frameColor),
   ("tintOpacity", .q p.tintOpacity), ("frameScale", .q p.frameScale),
   ("frameMaterial", .s p.frameMaterial), ("frameMetalness", .q p.frameMetalness)]

/-- Frame pixels of one image: pixels of the 100x100 resize whose
luminance is strictly between 10 and 100 (`dark_mask` in the source). -/
def darkPixels (img : ImgData) : List RGB :=
  img.pixels.filter (fun p => decide (10 < brightness p) && decide (brightness p < 100))

/-- Tint pixels of one image: pixels of the 50x50 centre crop whose
luminance is strictly between 30 and 200 (`tint_mask` in the source). -/
def tintPixels (img : ImgData) : List RGB :=
  img.centerPixels.filter (fun p => decide (30 < brightness p) && decide (brightness p < 200))

/-- The per-image loop of `extract_glasses_properties`: returns
`(all_frame_colors, all_frame_pixels, all_lens_colors)` in traversal
order.  A `none` entry is an image whose `Image.open` raised; the
per-image `except` clause skips it.  An image appends its truncated
per-channel frame-pixel median and its raw frame pixels only when it has
strictly more than 10 frame pixels, and its truncated per-channel
tint-pixel mean only when it has strictly more than 5 tint pixels. -/
def extractLoop : List (Option ImgData) → List RGB × List RGB × List RGB
  | [] => ([], [], [])
  | none :: rest => extractLoop rest
  | some img :: rest =>
      let dps := darkPixels img
      let tps := tintPixels img
      let (fcs, fps, lcs) := extractLoop rest
      (if dps.length > 10 then truncRGB (chanMedian dps) :: fcs else fcs,
       if dps.length > 10 then dps ++ fps else fps,
       if tps.length > 5 then truncRGB (chanMean tps) :: lcs else lcs)

/-- The `frame_pixels_array` fallback: the collected frame pixels, or the
single placeholder pixel `[50, 50, 50]` when none were collected. -/
def framePixelsArray (fps : List RGB) : List RGB :=
  if fps = [] then [⟨50, 50, 50⟩] else fps

/-- Frame-material decision of `extract_glasses_properties`, parameterised
by the square-root routine `sq` used by `np.std`.  Requires strictly more
than 10 pixels in `frame_pixels_array`, else plastic with metalness 0.1. -/
def materialDecision (sq : ℚ → ℚ) (fps : List RGB) : String × ℚ :=
  let arr := framePixelsArray fps
  if arr.length > 10 then
    let avg_std := npMean [sq (npVar (arr.map RGB.r)), sq (npVar (arr.map RGB.g)),
                           sq (npVar (arr.map RGB.b))]
    let bright := arr.map brightness
    let brightness_std := sq (npVar bright)
    let avgColor := chanMean arr
    let is_silver := npMean bright > 150 ∧ sq (npVar [avgColor.r, avgColor.g, avgColor.b]) < 20
    let is_gold := avgColor.r > avgColor.g ∧ avgColor.g > avgColor.b ∧ brightness_std > 30
    if is_silver ∨ is_gold ∨ (avg_std < 25 ∧ brightness_std > 40) then
      ("metal", if is_silver then 0.7 else 0.5)
    else ("plastic", 0.1)
  else ("plastic", 0.1)

/-- The Attribute Extractor, `extract_glasses_properties`.  `pilOk` is
whether the `PIL`/`numpy` import succeeds (on failure the fixed default
profile is returned for the whole call); `sq` is the square-root routine
of `np.std`; each list entry is a decoded image or `none` for a path whose
load raised. -/
def extract_glasses_properties (pilOk : Bool) (sq : ℚ → ℚ)
    (images : List (Option ImgData)) : Profile :=
  if ¬ pilOk then defaultProfile
  else
    let (all_frame_colors, all_frame_pixels, all_lens_colors) := extractLoop images
    let (frame_material, metalness) := materialDecision sq all_frame_pixels
    let frame_color :=
      if all_frame_colors ≠ [] then hexColor (chanMean all_frame_colors) else "#1a1a1a"
    let lensPair :=
      if all_lens_colors ≠ [] then
        let fl := chanMean all_lens_colors
        let ri := (npToInt fl.r : ℚ)
        let gi := (npToInt fl.g : ℚ)
        let bi := (npToInt fl.b : ℚ)
        let s := hsvS (ri / 255) (gi / 255) (bi / 255)
        (hexColor fl, min 0.85 (max 0.25 (s * 0.5 + 0.3)))
      else ("#3b82f6", (0.5 : ℚ))
    { lensColor := lensPair.1, frameColor := frame_color,
      tintOpacity := round2 lensPair.2, frameScale := 1.0,
      frameMaterial := frame_material, frameMetalness := round2 metalness }

/-- Python `str.lower()` (ASCII case mapping suffices for the identifiers
compared in the source). -/
def pyLower (s : String) : String := ⟨s.data.map Char.toLower⟩

/-- Code-point lexicographic `≤` on char lists: the order Python's string
comparison (and hence `sorted`) uses. -/
def codeLe : List Char → List Char → Bool
  | [], _ => true
  | _ :: _, [] => false
  | a :: as, b :: bs =>
      if a.toNat < b.toNat then true
      else if b.toNat < a.toNat then false
      else codeLe as bs

/-- Python string `≤` as a relation on strings. -/
def pyStrLe (a b : String) : Prop := codeLe a.data b.data = true

instance : DecidableRel pyStrLe := fun a b => by unfold pyStrLe; infer_instance

/-- Index of the dot separating Python's `os.path.splitext` extension: the
last `.`, provided some earlier character of the name is not a `.`
(leading dots never start an extension). -/
def splitextPos (cs : List Char) : Option ℕ :=
  match cs.reverse.findIdx? (· == '.') with
  | none => none
  | some k =>
      let i := cs.length - 1 - k
      if (cs.take i).any (fun c => c != '.') then some i else none

/-- Python `os.path.splitext`: root and extension. -/
def pySplitext (s : String) : String × String :=
  match splitextPos s.data with
  | none => (s, "")
  | some i => (⟨s.data.take i⟩, ⟨s.data.drop i⟩)

/-- The catalog image extensions accepted by `list_refs`. -/
def valid_exts : List String := [".jpg", ".jpeg", ".png", ".webp"]

/-- The catalog enumeration `list_refs`: empty when the reference directory
is missing, otherwise the directory listing filtered to catalog image
extensions (checked on the lowercased name) and sorted. -/
def list_refs (dirExists : Bool) (listing : List String) : List String :=
  if dirExists then
    List.insertionSort pyStrLe
      (listing.filter (fun f => valid_exts.contains (pySplitext (pyLower f)).2))
  else []

/-- Environment of one matching run: availability and outputs of the
injected capabilities (CLIP model, embedding cache, filesystem) plus the
exception switches of the two broad `try` blocks. -/
structure Env where
  /-- `load_clip()` succeeds. -/
  clipAvailable : Bool
  /-- Zero-shot scores of one image: (summed glasses probability, summed
  non-glasses probability) over the fixed prompt lists. -/
  scoreImage : ImgData → ℚ × ℚ
  /-- The validation scoring loop raises no exception. -/
  scoringOk : Bool
  /-- `os.path.isdir(REF_DIR)`. -/
  dirExists : Bool
  /-- `os.listdir(REF_DIR)`. -/
  listing : List String
  /-- `os.path.exists(EMBEDDINGS_FILE)`. -/
  cacheExists : Bool
  /-- `torch.load` of the cache succeeds. -/
  cacheLoadOk : Bool
  /-- `data["filenames"]` of the cache. -/
  cachedFilenames : List String
  /-- Raw cosine similarities of the normalized mean query embedding
  against each cached reference embedding (CLIP capability output). -/
  sims : List ℚ
  /-- `is_rectangular` of the shape analysis of the first uploaded image. -/
  shapeRect : Bool
  /-- `is_round` of the shape analysis of the first uploaded image. -/
  shapeRound : Bool
  /-- The `PIL`/`numpy` import inside the extractor succeeds. -/
  pilOk : Bool
  /-- Square-root routine used by `np.std`. -/
  sqrtFn : ℚ → ℚ
  /-- The matching `try` block raises no exception beyond image loads. -/
  matchOk : Bool

/-- Images a stage obtains from the paths when it loads each one under a
per-image `try`: a failed load contributes `none`. -/
def loadOpt (paths : List ImagePath) : List (Option ImgData) :=
  paths.map (fun p => if p.loadable then some p.data else none)

/-- Images the Validation Gate works on: failed loads are skipped. -/
def loadedImgs (paths : List ImagePath) : List ImgData :=
  (paths.filter ImagePath.loadable).map ImagePath.data

/-- The Validation Gate, `validate_glasses_image`: returns
`(is_valid, confidence, rejection_reason)`.  The source interpolates the
numeric confidences into the two non-load rejection messages; that numeric
suffix is elided here. -/
def validate_glasses_image (env : Env) (paths : List ImagePath) :
    Bool × ℚ × Option String :=
  if ¬ env.clipAvailable then (true, 1, none)
  else
    let images := loadedImgs paths
    if images = [] then (false, 0, some "Could not load any images")
    else if ¬ env.scoringOk then (true, 1, none)
    else
      let glasses_scores := images.map (fun i => (env.scoreImage i).1)
      let non_glasses_scores := images.map (fun i => (env.scoreImage i).2)
      let avg_glasses_score := glasses_scores.sum / glasses_scores.length
      let avg_non_glasses_score := non_glasses_scores.sum / non_glasses_scores.length
      let is_valid := avg_glasses_score > avg_non_glasses_score ∧
        avg_glasses_score ≥ (0.25 : ℚ)
      let reason :=
        if is_valid then none
        else if avg_glasses_score < (0.25 : ℚ) then
          some "Image does not appear to be eyeglasses"
        else some "Image appears to be something other than glasses"
      (decide is_valid, avg_glasses_score, reason)

/-- Result dict of the validation-rejected path, in source field order. -/
def rejectedRecord (reason : Option String) (vconf : ℚ) : List (String × Value) :=
  [("error", match reason with | some r => .s r | none => .null),
   ("matched", .b false), ("method", .s "validation_rejected"),
   ("validation_confidence", .q vconf)]

/-- Result dict of the non-rejected paths, in source field order; the
profile fields are spread at the end exactly as `**properties`. -/
def matchRecord (bestModel : String) (conf : ℚ) (src : String)
    (methodName : String) (props : Profile) : List (String × Value) :=
  [("best_model", .s bestModel), ("confidence", .q conf),
   ("source_image", .s src), ("matched", .b true), ("method", .s methodName)]
    ++ profileFields props

/-- Python truthiness of the `image_paths` argument of `simple_match`:
`None` and the empty list are falsy. -/
def pyTruthy : Option (List ImagePath) → Bool
  | none => false
  | some l => !l.isEmpty

/-- The fallback matcher `simple_match`: first catalog entry in sorted
order (confidence 0.6, method "fallback"), or the literal default when the
catalog is empty (confidence 0.5, method "default"); properties extracted
from the given images when any, else the fixed defaults. -/
def simple_match (env : Env) (image_paths : Option (List ImagePath)) :
    List (String × Value) :=
  let refs := list_refs env.dirExists env.listing
  let properties :=
    if pyTruthy image_paths then
      extract_glasses_properties env.pilOk env.sqrtFn (loadOpt (image_paths.getD []))
    else defaultProfile
  match refs with
  | r0 :: _ =>
      matchRecord ((pySplitext r0).1 ++ ".glb") 0.6 r0 "fallback" properties
  | [] => matchRecord "default.glb" 0.5 "none" "default" properties

/-- Filename keywords associated with rectangular frames, in source
order. -/
def rectangular_keywords : List String :=
  ["rayban", "ray_ban", "wayfarer", "black_glasses", "rectangular", "square",
   "nerd", "hipster", "reading"]

/-- Filename keywords associated with round frames, in source order. -/
def round_keywords : List String :=
  ["round", "circle", "metal_round", "lennon", "vintage"]

/-- Whether some keyword of the list occurs as a substring of the
(lowercased) filename: the `for kw in ...: if kw in ref_lower: ...; break`
pattern adjusts the score at most once per list, so it is exactly an
existence check. -/
def kwMatch (kws : List String) (nameLower : String) : Bool :=
  kws.any (fun kw => decide (kw.data <:+: nameLower.data))

/-- Score adjustment of one catalog entry in the shape re-ranking.  The
rectangular (resp. round) boost loop and the round (resp. rectangular)
penalty loop of the source run independently: each contributes at most
once, and both can fire on one entry. -/
def boostFor (isRect isRound : Bool) (refName : String) : ℚ :=
  let refLower := pyLower refName
  if isRect then
    (if kwMatch rectangular_keywords refLower then (0.15 : ℚ) else 0) +
      (if kwMatch round_keywords refLower then -(0.1 : ℚ) else 0)
  else if isRound then
    (if kwMatch round_keywords refLower then (0.15 : ℚ) else 0) +
      (if kwMatch rectangular_keywords refLower then -(0.1 : ℚ) else 0)
  else 0

/-- `sims_boosted`: the raw similarity vector with each entry adjusted by
its filename's boost (the enumeration pairs filenames with scores
positionally). -/
def applyBoost (isRect isRound : Bool) (names : List String) (sims : List ℚ) :
    List ℚ :=
  List.zipWith (fun name s => s + boostFor isRect isRound name) names sims

/-- Index of the first maximal entry, `torch.argmax` (0 on the empty list,
which the reachable paths never pass). -/
def argmaxAux (best : ℚ) (bestIdx i : ℕ) : List ℚ → ℕ
  | [] => bestIdx
  | x :: xs => if x > best then argmaxAux x i (i + 1) xs else argmaxAux best bestIdx (i + 1) xs

/-- Argmax entry point. -/
def argmaxIdx : List ℚ → ℕ
  | [] => 0
  | x :: xs => argmaxAux x 0 1 xs

/-- The Orchestrator `clip_match`: validation gate, then the layered
fallback ladder, then the cached-embedding matcher with shape re-ranking.
A failed image load inside the matching `try` block (which has no
per-image guard) raises and is caught by the block's `except`, which falls
back to `simple_match` on the full original path list. -/
def clip_match (env : Env) (paths : List ImagePath) : List (String × Value) :=
  let v := validate_glasses_image env paths
  if ¬ v.1 then rejectedRecord v.2.2 (round3 v.2.1)
  else if ¬ env.clipAvailable then simple_match env (some paths)
  else if ¬ (env.cacheExists ∧ env.cacheLoadOk) then
    if (list_refs env.dirExists env.listing).length > 50 then
      simple_match env (some paths)
    else simple_match env (some paths)
  else if paths.any (fun p => !p.loadable) then simple_match env (some paths)
  else if ¬ env.matchOk then simple_match env (some paths)
  else
    let sims := env.sims
    let sims_boosted := applyBoost env.shapeRect env.shapeRound env.cachedFilenames sims
    let best_idx := argmaxIdx sims_boosted
    let best_score := sims.getD best_idx 0
    let best_ref := env.cachedFilenames.getD best_idx ""
    let base := (pySplitext best_ref).1
    let confidence := (best_score + 1) / 2
    let properties := extract_glasses_properties env.pilOk env.sqrtFn (loadOpt paths)
    matchRecord (base ++ ".glb") (round3 confidence) best_ref "clip_cached" properties

/-- The sixteen lowercase hex digit characters. -/
def hexChars : List Char := "0123456789abcdef".data

/-- A string of shape `#rrggbb`: a hash followed by exactly six lowercase
hex digits. -/
def isHexColor (s : String) : Prop :=
  s.data.length = 7 ∧ s.data.headI = '#' ∧ ∀ c ∈ s.data.tail, c ∈ hexChars

instance (s : String) : Decidable (isHexColor s) := by
  unfold isHexColor; infer_instance

/-- Field names of every non-rejected result dict, in construction
order. -/
def standardKeys : List String :=
  ["best_model", "confidence", "source_image", "matched", "method",
   "lensColor", "frameColor", "tintOpacity", "frameScale", "frameMaterial",
   "frameMetalness"]

/-- Field names of the validation-rejected result dict. -/
def rejectedKeys : List String :=
  ["error", "matched", "method", "validation_confidence"]

/-- The ColorProfile field names the spec says are present in every
terminal result. -/
def colorProfileKeys : List String :=
  ["lensColor", "frameColor", "tintOpacity", "frameMaterial", "frameMetalness"]

/-- Channel values within the uint8 range. -/
def inBounds (p : RGB) : Prop :=
  0 ≤ p.r ∧ p.r ≤ 255 ∧ 0 ≤ p.g ∧ p.g ≤ 255 ∧ 0 ≤ p.b ∧ p.b ≤ 255

/-- All pixel data of an image within the uint8 range. -/
def imgBounded (img : ImgData) : Prop :=
  (∀ p ∈ img.pixels, inBounds p) ∧ ∀ p ∈ img.centerPixels, inBounds p

instance (p : RGB) : Decidable (inBounds p) := by
  unfold inBounds; infer_instance

instance (img : ImgData) : Decidable (imgBounded img) := by
  unfold imgBounded; infer_instance

/-- Declarative form of `all_frame_colors`: the truncated per-channel
frame-pixel medians of the loaded images having strictly more than 10
frame pixels, in order. -/
def contributingFrameMedians (images : List (Option ImgData)) : List RGB :=
  (images.filterMap id).filterMap
    (fun img => if (darkPixels img).length > 10
      then some (truncRGB (chanMedian (darkPixels img))) else none)

/-- Declarative form of `all_frame_pixels`: the concatenated frame pixels
of the loaded images having strictly more than 10 of them. -/
def collectedFramePixels (images : List (Option ImgData)) : List RGB :=
  ((images.filterMap id).filter (fun img => (darkPixels img).length > 10)).flatMap
    darkPixels

/-- Declarative form of `all_lens_colors`: the truncated per-channel
tint-pixel means of the loaded images having strictly more than 5 tint
pixels, in order. -/
def contributingLensMeans (images : List (Option ImgData)) : List RGB :=
  (images.filterMap id).filterMap
    (fun img => if (tintPixels img).length > 5
      then some (truncRGB (chanMean (tintPixels img))) else none)

/-- Modelled from the spec, for comparison with the source (claim C2):
the reported frame colour as "the per-channel median computed across the
union of all frame pixels collected from all images". -/
def claimFrameColor (images : List (Option ImgData)) : String :=
  hexColor (chanMedian (collectedFramePixels images))

/-- Modelled from the spec, for comparison with the source (claim C2):
the reported lens colour as "the per-channel mean across all collected
tint pixels from all images". -/
def claimLensColor (images : List (Option ImgData)) : String :=
  hexColor (chanMean (((images.filterMap id).filter
    (fun img => (tintPixels img).length > 5)).flatMap tintPixels))

/-- Trivial square-root stand-in used by concrete evaluations (the
theorems hold for every square-root routine). -/
def sq0 : ℚ → ℚ := fun _ => 0

/-- Empty image used as a placeholder in concrete runs. -/
def dummyImg : ImgData := ⟨[], []⟩

/-- Base environment for concrete runs: every capability available,
validation scores (1/2, 1/4) for every image, empty catalog data. -/
def baseEnv : Env where
  clipAvailable := true
  scoreImage := fun _ => (1/2, 1/4)
  scoringOk := true
  dirExists := false
  listing := []
  cacheExists := true
  cacheLoadOk := true
  cachedFilenames := []
  sims := []
  shapeRect := false
  shapeRound := false
  pilOk := false
  sqrtFn := sq0
  matchOk := true

/-- Environment whose validation scores put every image far below the
glasses threshold, so the gate rejects. -/
def envRejecting : Env := { baseEnv with scoreImage := fun _ => (1/10, 1/5) }

/-- A single loadable path. -/
def pathsOne : List ImagePath := [⟨true, dummyImg⟩]

/-- Image of claim C2's refutation: 11 frame pixels of value 20 and 6
centre pixels of value 40. -/
def imgA : ImgData :=
  ⟨List.replicate 11 ⟨20, 20, 20⟩, List.replicate 6 ⟨40, 40, 40⟩⟩

/-- Image of claim C2's refutation: 31 frame pixels of value 90 and 18
centre pixels of value 160. -/
def imgB : ImgData :=
  ⟨List.replicate 31 ⟨90, 90, 90⟩, List.replicate 18 ⟨160, 160, 160⟩⟩

/-- Boundary image of claim C7's refutation: exactly 10 frame pixels and
exactly 5 tint pixels. -/
def img10 : ImgData :=
  ⟨List.replicate 10 ⟨20, 20, 20⟩, List.replicate 5 ⟨100, 100, 100⟩⟩

/-- Boundary image of claim C7's refutation: 11 frame pixels and 6 tint
pixels, one past each threshold. -/
def img11 : ImgData :=
  ⟨List.replicate 11 ⟨20, 20, 20⟩, List.replicate 6 ⟨100, 100, 100⟩⟩

/-- Environment of claim C4's refutation: capability and cache available,
one catalog entry, neutral shape. -/
def envC4 : Env :=
  { baseEnv with cachedFilenames := ["alpha.png"], sims := [1/2],
                 dirExists := true, listing := ["alpha.png"] }

/-- Two paths, the second of which fails to decode. -/
def pathsGoodBad : List ImagePath := [⟨true, dummyImg⟩, ⟨false, dummyImg⟩]

/-- Environment of claim C5's witness: raw scores [0.9, 0.85], a
rectangular query shape, and only entry 1's filename containing a
rectangular keyword. -/
def envC5 : Env :=
  { baseEnv with cachedFilenames := ["oval.png", "wayfarer.png"],
                 sims := [9/10, 17/20], shapeRect := true }

/-- Environment with a populated reference directory, for concrete runs of
the catalog enumeration. -/
def env8 : Env := { baseEnv with dirExists := true, listing := ["b.png", "a.jpg", "c.txt"] }

/-- Environment whose CLIP capability fails to load. -/
def envNoClip : Env := { baseEnv with clipAvailable := false }

/-- Environment whose validation scoring loop raises. -/
def envScoringFails : Env := { baseEnv with scoringOk := false }

/-- The lowercased filename contains some rectangular-list keyword. -/
def rectKwHit (name : String) : Prop :=
  ∃ kw ∈ rectangular_keywords, kw.data <:+: (pyLower name).data

/-- The lowercased filename contains some round-list keyword. -/
def roundKwHit (name : String) : Prop :=
  ∃ kw ∈ round_keywords, kw.data <:+: (pyLower name).data

instance (name : String) : Decidable (rectKwHit name) := by
  unfold rectKwHit; infer_instance

instance (name : String) : Decidable (roundKwHit name) := by
  unfold roundKwHit; infer_instance

attribute [local semireducible] Rat.ofScientific Rat.mul Rat.inv Rat.add Rat.sub

theorem matchRecord_keys {bm : String} {c : ℚ} {src m : String} {p : Profile} :
    (matchRecord bm c src m p).map Prod.fst = standardKeys := rfl

theorem rejectedRecord_keys {reason : Option String} {v : ℚ} :
    (rejectedRecord reason v).map Prod.fst = rejectedKeys := rfl

theorem simple_match_keys (env : Env) (ip : Option (List ImagePath)) :
    (simple_match env ip).map Prod.fst = standardKeys := by
  simp only [simple_match]
  split <;> split <;> exact matchRecord_keys

theorem lookup_matched_matchRecord {bm : String} {c : ℚ} {src m : String} {p : Profile} :
    List.lookup "matched" (matchRecord bm c src m p) = some (Value.b true) := rfl

theorem lookup_method_matchRecord {bm : String} {c : ℚ} {src m : String} {p : Profile} :
    List.lookup "method" (matchRecord bm c src m p) = some (Value.s m) := rfl

theorem lookup_method_simple_match (env : Env) (ip : Option (List ImagePath)) :
    List.lookup "method" (simple_match env ip) = some (Value.s "fallback") ∨
      List.lookup "method" (simple_match env ip) = some (Value.s "default") := by
  simp only [simple_match]
  split <;> split
  · exact Or.inl lookup_method_matchRecord
  · exact Or.inl lookup_method_matchRecord
  · exact Or.inr lookup_method_matchRecord
  · exact Or.inr lookup_method_matchRecord

theorem lookup_matched_simple_match (env : Env) (ip : Option (List ImagePath)) :
    List.lookup "matched" (simple_match env ip) = some (Value.b true) := by
  simp only [simple_match]
  split <;> split <;> exact lookup_matched_matchRecord

/-- C1 (counterexample): a concrete validation-rejected terminal result
carries no `lensColor` field (nor any other ColorProfile field), refuting
the claim that the ColorProfile fields are present in every terminal
result including the validation-rejected one. -/
theorem C1_counterexample :
    "lensColor" ∉ (clip_match envRejecting pathsOne).map Prod.fst := by decide

/-- C1 (amended): every terminal result of the matching pipeline has one
of exactly two shapes: the standard record (all of clip_cached, fallback
and default produce it, and it contains every ColorProfile field) or the
validation-rejected record, whose fields are exactly
error/matched/method/validation_confidence and contain no ColorProfile
field. -/
theorem C1_terminal_result_shapes :
    (∀ (env : Env) (paths : List ImagePath),
      (clip_match env paths).map Prod.fst = rejectedKeys ∨
        (clip_match env paths).map Prod.fst = standardKeys) ∧
    colorProfileKeys.all
      (fun k => standardKeys.contains k && !(rejectedKeys.contains k)) = true := by
  refine ⟨fun env paths => ?_, by decide⟩
  simp only [clip_match]
  split_ifs
  all_goals
    first
      | exact Or.inl rfl
      | exact Or.inr (simple_match_keys _ _)
      | exact Or.inr matchRecord_keys

/-- C10: every result produced by simple_match, including the
empty-catalog default case, has matched = true; and a terminal result of
clip_match has matched = false exactly when its method is
"validation_rejected". -/
theorem C10_matched_only_false_on_rejection :
    (∀ (env : Env) (ip : Option (List ImagePath)),
      List.lookup "matched" (simple_match env ip) = some (Value.b true)) ∧
    (∀ (env : Env) (paths : List ImagePath),
      List.lookup "matched" (clip_match env paths) = some (Value.b false) ↔
        List.lookup "method" (clip_match env paths) = some (Value.s "validation_rejected")) := by
  refine ⟨lookup_matched_simple_match, fun env paths => ?_⟩
  simp only [clip_match]
  split_ifs
  all_goals
    first
      | exact iff_of_true rfl rfl
      | (refine iff_of_false ?_ ?_ <;>
          first
            | (rw [lookup_matched_simple_match]; decide)
            | (rw [lookup_matched_matchRecord]; decide)
            | (rcases lookup_method_simple_match _ _ with h | h <;> rw [h] <;> decide)
            | (rw [lookup_method_matchRecord]; decide))

theorem codeLe_refl : ∀ cs, codeLe cs cs = true
  | [] => rfl
  | _ :: as => by simp [codeLe, codeLe_refl as]

theorem codeLe_total : ∀ as bs, codeLe as bs = true ∨ codeLe bs as = true
  | [], _ => Or.inl rfl
  | _ :: _, [] => Or.inr rfl
  | a :: as, b :: bs => by
      simp only [codeLe]
      rcases codeLe_total as bs with h | h <;>
        split_ifs <;> simp_all <;> omega

theorem codeLe_trans : ∀ as bs cs, codeLe as bs = true → codeLe bs cs = true →
    codeLe as cs = true
  | [], _, _, _, _ => rfl
  | _ :: _, [], _, h1, _ => by simp [codeLe] at h1
  | _ :: _, _ :: _, [], _, h2 => by simp [codeLe] at h2
  | a :: as, b :: bs, c :: cs, h1, h2 => by
      simp only [codeLe] at h1 h2 ⊢
      split_ifs at h1 h2 ⊢ <;>
        first
          | rfl
          | omega
          | exact codeLe_trans as bs cs h1 h2
          | simp_all

instance : IsTotal String pyStrLe :=
  ⟨fun a b => codeLe_total a.data b.data⟩

instance : IsTrans String pyStrLe :=
  ⟨fun a b c => codeLe_trans a.data b.data c.data⟩

theorem list_refs_sorted (d : Bool) (l : List String) :
    List.Sorted pyStrLe (list_refs d l) := by
  unfold list_refs
  split
  · exact List.sorted_insertionSort pyStrLe _
  · exact List.sorted_nil

theorem head_le_of_sorted {r0 : String} {rest : List String}
    (h : List.Sorted pyStrLe (r0 :: rest)) : ∀ x ∈ r0 :: rest, pyStrLe r0 x := by
  intro x hx
  rcases List.mem_cons.1 hx with rfl | hx
  · exact codeLe_refl x.data
  · exact (List.pairwise_cons.1 h).1 x hx

/-- C8: for a non-empty catalog, simple_match reports the lexicographically
least catalog filename with its extension replaced by ".glb", confidence
0.6 and method "fallback"; for an empty catalog it reports "default.glb",
confidence 0.5 and method "default". -/
theorem C8_simple_match_result :
    ∀ (env : Env) (ip : Option (List ImagePath)),
      (list_refs env.dirExists env.listing = [] →
        List.lookup "best_model" (simple_match env ip) = some (Value.s "default.glb") ∧
        List.lookup "confidence" (simple_match env ip) = some (Value.q 0.5) ∧
        List.lookup "method" (simple_match env ip) = some (Value.s "default")) ∧
      (∀ r0 rest, list_refs env.dirExists env.listing = r0 :: rest →
        List.lookup "best_model" (simple_match env ip) =
          some (Value.s ((pySplitext r0).1 ++ ".glb")) ∧
        List.lookup "confidence" (simple_match env ip) = some (Value.q 0.6) ∧
        List.lookup "method" (simple_match env ip) = some (Value.s "fallback") ∧
        ∀ x ∈ list_refs env.dirExists env.listing, pyStrLe r0 x) := by
  intro env ip
  constructor
  · intro h
    simp only [simple_match, h]
    exact ⟨rfl, rfl, rfl⟩
  · intro r0 rest h
    simp only [simple_match, h]
    refine ⟨rfl, rfl, rfl, ?_⟩
    have hs := list_refs_sorted env.dirExists env.listing
    rw [h] at hs
    exact head_le_of_sorted hs

/-- C8 witness: a concrete populated catalog selects the alphabetically
first image file, and a missing directory yields the default result. -/
theorem C8_simple_match_result_witness :
    List.lookup "best_model" (simple_match env8 none) = some (Value.s "a.glb") ∧
    List.lookup "method" (simple_match baseEnv none) = some (Value.s "default") := by
  constructor
  · have h := (C8_simple_match_result env8 none).2 "a.jpg" ["b.png"] (by decide)
    rw [h.1]
    decide
  · exact ((C8_simple_match_result baseEnv none).1 (by decide)).2.2

theorem kwMatch_iff (kws : List String) (s : String) :
    kwMatch kws s = true ↔ ∃ kw ∈ kws, kw.data <:+: s.data := by
  simp [kwMatch]

/-- C3 (counterexample): with a rectangular query, the single entry
"rectangular_round.png" matches a rectangular keyword and a round keyword,
and receives the boost and the penalty together: its boosted score is
0 + 0.15 - 0.1 = 0.05, not 0.15, refuting the claimed mutual exclusion. -/
theorem C3_counterexample :
    applyBoost true false ["rectangular_round.png"] [0] = [1/20] ∧
      ((1/20 : ℚ) ≠ 3/20) := by
  constructor <;> decide

/-- C3 (amended): in the shape re-ranking the boost and penalty loops run
independently for each entry: with a rectangular query an entry gains 0.15
if its filename matches any rectangular keyword and additionally loses 0.1
if it matches any round keyword — both fire (net +0.05) when the filename
matches both lists; symmetrically for a round query.  Each loop's `break`
only caps that loop's own adjustment at one application. -/
theorem C3_boost_penalty_independent :
    ∀ name : String,
      (boostFor true false name =
        (if rectKwHit name then (0.15 : ℚ) else 0) +
          (if roundKwHit name then -(0.1 : ℚ) else 0)) ∧
      (boostFor false true name =
        (if roundKwHit name then (0.15 : ℚ) else 0) +
          (if rectKwHit name then -(0.1 : ℚ) else 0)) ∧
      (rectKwHit name → roundKwHit name →
        boostFor true false name = 1/20 ∧ boostFor false true name = 1/20) := by
  intro name
  have h1 : kwMatch rectangular_keywords (pyLower name) = true ↔ rectKwHit name := by
    simp [kwMatch, rectKwHit]
  have h2 : kwMatch round_keywords (pyLower name) = true ↔ roundKwHit name := by
    simp [kwMatch, roundKwHit]
  refine ⟨?_, ?_, fun hr ho => ?_⟩
  · simp only [boostFor, if_true]
    rw [if_congr h1 rfl rfl, if_congr h2 rfl rfl]
  · simp only [boostFor, if_true, Bool.false_eq_true, if_false]
    rw [if_congr h2 rfl rfl, if_congr h1 rfl rfl]
  · constructor <;> norm_num [boostFor, h1, h2, hr, ho]

/-- C3 witness: the double-keyword filename realises the +0.05 net
adjustment under both query shapes. -/
theorem C3_boost_penalty_independent_witness :
    boostFor true false "rectangular_round.png" = 1/20 ∧
      boostFor false true "rectangular_round.png" = 1/20 :=
  (C3_boost_penalty_independent "rectangular_round.png").2.2 (by decide) (by decide)

theorem lookup_source_matchRecord {bm : String} {c : ℚ} {src m : String} {p : Profile} :
    List.lookup "source_image" (matchRecord bm c src m p) = some (Value.s src) := rfl

theorem lookup_confidence_matchRecord {bm : String} {c : ℚ} {src m : String} {p : Profile} :
    List.lookup "confidence" (matchRecord bm c src m p) = some (Value.q c) := rfl

/-- C5: on the cached-embedding path the Similarity Matcher selects the
catalog entry at the argmax of the boosted score vector but reports
confidence computed from the unboosted raw cosine score at that index as
(rawScore + 1)/2 (rounded to three decimals). -/
theorem C5_argmax_boosted_confidence_raw :
    ∀ (env : Env) (paths : List ImagePath),
      (validate_glasses_image env paths).1 = true →
      env.clipAvailable = true →
      env.cacheExists = true → env.cacheLoadOk = true →
      paths.any (fun p => !p.loadable) = false →
      env.matchOk = true →
      List.lookup "source_image" (clip_match env paths) =
        some (Value.s (env.cachedFilenames.getD
          (argmaxIdx (applyBoost env.shapeRect env.shapeRound env.cachedFilenames env.sims))
          "")) ∧
      List.lookup "confidence" (clip_match env paths) =
        some (Value.q (round3 ((env.sims.getD
          (argmaxIdx (applyBoost env.shapeRect env.shapeRound env.cachedFilenames env.sims))
          0 + 1) / 2))) := by
  intro env paths hv hclip hce hcl hload hok
  simp only [clip_match, hv, hclip, hce, hcl, hload, hok]
  norm_num
  exact ⟨lookup_source_matchRecord, lookup_confidence_matchRecord⟩

/-- C5 witness: raw scores [0.9, 0.85] with a rectangular query and only
entry 1 matching a rectangular keyword select index 1 with confidence
(0.85 + 1)/2 = 0.925. -/
theorem C5_argmax_boosted_confidence_raw_witness :
    List.lookup "source_image" (clip_match envC5 pathsOne) = some (Value.s "wayfarer.png") ∧
    List.lookup "confidence" (clip_match envC5 pathsOne) = some (Value.q (37/40)) := by
  have h := C5_argmax_boosted_confidence_raw envC5 pathsOne (by decide) rfl rfl rfl
    (by decide) rfl
  refine ⟨?_, ?_⟩
  · rw [h.1]; decide
  · rw [h.2]; decide

/-- C6: the Validation Gate is valid iff the average glasses probability
exceeds the average non-glasses probability and is at least 0.25, with the
average glasses probability as confidence; an unavailable capability fails
open (true, 1.0), no loadable image fails closed (false, 0.0, "Could not
load any images"), and a scoring exception fails open (true, 1.0). -/
theorem C6_validation_gate :
    ∀ (env : Env) (paths : List ImagePath),
      (env.clipAvailable = false →
        validate_glasses_image env paths = (true, 1, none)) ∧
      (env.clipAvailable = true → loadedImgs paths = [] →
        validate_glasses_image env paths =
          (false, 0, some "Could not load any images")) ∧
      (env.clipAvailable = true → loadedImgs paths ≠ [] → env.scoringOk = false →
        validate_glasses_image env paths = (true, 1, none)) ∧
      (env.clipAvailable = true → loadedImgs paths ≠ [] → env.scoringOk = true →
        (validate_glasses_image env paths).1 =
          decide (npMean ((loadedImgs paths).map (fun i => (env.scoreImage i).1)) >
              npMean ((loadedImgs paths).map (fun i => (env.scoreImage i).2)) ∧
            npMean ((loadedImgs paths).map (fun i => (env.scoreImage i).1)) ≥ (0.25 : ℚ)) ∧
        (validate_glasses_image env paths).2.1 =
          npMean ((loadedImgs paths).map (fun i => (env.scoreImage i).1))) := by
  intro env paths
  refine ⟨fun h => ?_, fun h1 h2 => ?_, fun h1 h2 h3 => ?_, fun h1 h2 h3 => ?_⟩
  · simp [validate_glasses_image, h]
  · simp [validate_glasses_image, h1, h2]
  · simp [validate_glasses_image, h1, h2, h3]
  · simp only [validate_glasses_image, h1, h2, h3]
    norm_num [npMean, h2]

/-- C6 witness: concrete runs of the four validation branches. -/
theorem C6_validation_gate_witness :
    validate_glasses_image envNoClip pathsOne = (true, 1, none) ∧
    validate_glasses_image baseEnv [⟨false, dummyImg⟩] =
      (false, 0, some "Could not load any images") ∧
    validate_glasses_image envScoringFails pathsOne = (true, 1, none) ∧
    (validate_glasses_image baseEnv pathsOne).1 = true := by
  refine ⟨(C6_validation_gate envNoClip pathsOne).1 rfl,
          (C6_validation_gate baseEnv _).2.1 rfl (by decide),
          (C6_validation_gate envScoringFails pathsOne).2.2.1 rfl (by decide) rfl, ?_⟩
  have h := (C6_validation_gate baseEnv pathsOne).2.2.2 rfl (by decide) rfl
  rw [h.1]
  decide

theorem loadedImgs_skip (xs ys : List ImagePath) (d : ImgData) :
    loadedImgs (xs ++ ⟨false, d⟩ :: ys) = loadedImgs (xs ++ ys) := by
  simp [loadedImgs, List.filter_append]

theorem extractLoop_skip : ∀ (xs ys : List (Option ImgData)),
    extractLoop (xs ++ none :: ys) = extractLoop (xs ++ ys)
  | [], ys => rfl
  | none :: xs, ys => by
      simp only [List.cons_append, extractLoop, List.append_eq]
      exact extractLoop_skip xs ys
  | some img :: xs, ys => by
      simp only [List.cons_append, extractLoop, List.append_eq]
      rw [extractLoop_skip xs ys]

/-- C4 (counterexample): with the CLIP capability, cache and catalog all
available and validation passing, a path list with one undecodable image
produces a fallback result, while the same environment with only the good
path produces a clip_cached result: the Similarity Matcher path does not
skip the failing image and continue. -/
theorem C4_counterexample :
    List.lookup "method" (clip_match envC4 pathsGoodBad) = some (Value.s "fallback") ∧
    List.lookup "method" (clip_match envC4 pathsOne) = some (Value.s "clip_cached") := by
  constructor <;> decide

/-- C4 (amended): the Validation Gate and the Attribute Extractor skip an
image that fails to load and continue with the rest; the Similarity
Matcher's loading loop has no per-image guard, so on the cached-embedding
path a single failing image raises and the orchestrator degrades to simple
match over the full original path list. -/
theorem C4_per_image_failure_handling :
    (∀ (env : Env) (xs ys : List ImagePath) (d : ImgData),
      validate_glasses_image env (xs ++ ⟨false, d⟩ :: ys) =
        validate_glasses_image env (xs ++ ys)) ∧
    (∀ (pilOk : Bool) (sq : ℚ → ℚ) (xs ys : List (Option ImgData)),
      extract_glasses_properties pilOk sq (xs ++ none :: ys) =
        extract_glasses_properties pilOk sq (xs ++ ys)) ∧
    (∀ (env : Env) (paths : List ImagePath),
      (validate_glasses_image env paths).1 = true →
      env.clipAvailable = true → env.cacheExists = true → env.cacheLoadOk = true →
      paths.any (fun p => !p.loadable) = true →
      clip_match env paths = simple_match env (some paths)) := by
  refine ⟨fun env xs ys d => ?_, fun pilOk sq xs ys => ?_, fun env paths hv hclip hce hcl hbad => ?_⟩
  · unfold validate_glasses_image
    rw [loadedImgs_skip]
  · unfold extract_glasses_properties
    rw [extractLoop_skip]
  · simp [clip_match, hv, hclip, hce, hcl, hbad]

/-- C4 witness: concrete instances of the three per-image-failure
behaviours. -/
theorem C4_per_image_failure_handling_witness :
    validate_glasses_image baseEnv ([] ++ ⟨false, dummyImg⟩ :: pathsOne) =
      validate_glasses_image baseEnv ([] ++ pathsOne) ∧
    extract_glasses_properties true sq0 ([some imgA] ++ none :: []) =
      extract_glasses_properties true sq0 ([some imgA] ++ []) ∧
    clip_match envC4 pathsGoodBad = simple_match envC4 (some pathsGoodBad) :=
  ⟨C4_per_image_failure_handling.1 baseEnv [] pathsOne dummyImg,
   C4_per_image_failure_handling.2.1 true sq0 [some imgA] [],
   C4_per_image_failure_handling.2.2 envC4 pathsGoodBad (by decide) rfl rfl rfl (by decide)⟩

theorem extractLoop_eq : ∀ images : List (Option ImgData),
    extractLoop images =
      (contributingFrameMedians images, collectedFramePixels images,
        contributingLensMeans images)
  | [] => rfl
  | none :: rest => by
      simp only [extractLoop, extractLoop_eq rest]
      simp [contributingFrameMedians, collectedFramePixels, contributingLensMeans]
  | some img :: rest => by
      simp only [extractLoop, extractLoop_eq rest]
      by_cases hd : (darkPixels img).length > 10 <;>
        by_cases ht : (tintPixels img).length > 5 <;>
          simp [contributingFrameMedians, collectedFramePixels, contributingLensMeans,
            hd, ht]

set_option maxRecDepth 100000 in
/-- C2 (counterexample): for two concrete images (11 frame pixels of value
20 and 31 frame pixels of value 90; 6 tint pixels of value 40 and 18 of
value 160) the extractor reports the mean of the per-image medians,
#373737 (55), not the per-channel median across the union of all collected
frame pixels, which is 90 (#5a5a5a); likewise it reports the mean of the
per-image means #646464 (100), not the mean across all collected tint
pixels, which is 130 (#828282). -/
theorem C2_counterexample :
    (extract_glasses_properties true sq0 [some imgA, some imgB]).frameColor = "#373737" ∧
    claimFrameColor [some imgA, some imgB] = "#5a5a5a" ∧
    (extract_glasses_properties true sq0 [some imgA, some imgB]).lensColor = "#646464" ∧
    claimLensColor [some imgA, some imgB] = "#828282" := by
  refine ⟨?_, ?_, ?_, ?_⟩ <;> decide

/-- C2 (amended): the extractor's reported frameColor is the hex encoding
of the truncated per-channel mean of the per-image truncated frame-pixel
medians (one median per image with strictly more than 10 frame pixels),
and its lensColor the hex encoding of the truncated per-channel mean of
the per-image truncated tint-pixel means — a mean of per-image statistics,
not a statistic over the pooled pixel union. -/
theorem C2_mean_of_per_image_statistics :
    ∀ (sq : ℚ → ℚ) (images : List (Option ImgData)),
      (contributingFrameMedians images ≠ [] →
        (extract_glasses_properties true sq images).frameColor =
          hexColor (chanMean (contributingFrameMedians images))) ∧
      (contributingFrameMedians images = [] →
        (extract_glasses_properties true sq images).frameColor = "#1a1a1a") ∧
      (contributingLensMeans images ≠ [] →
        (extract_glasses_properties true sq images).lensColor =
          hexColor (chanMean (contributingLensMeans images))) ∧
      (contributingLensMeans images = [] →
        (extract_glasses_properties true sq images).lensColor = "#3b82f6") := by
  intro sq images
  refine ⟨fun h => ?_, fun h => ?_, fun h => ?_, fun h => ?_⟩ <;>
    simp [extract_glasses_properties, extractLoop_eq images, h]

/-- C2 witness: the amended aggregation evaluated on the two concrete
images of the refutation. -/
theorem C2_mean_of_per_image_statistics_witness :
    (extract_glasses_properties true sq0 [some imgA, some imgB]).frameColor =
      hexColor (chanMean (contributingFrameMedians [some imgA, some imgB])) ∧
    (extract_glasses_properties true sq0 [some imgA, some imgB]).lensColor =
      hexColor (chanMean (contributingLensMeans [some imgA, some imgB])) :=
  ⟨(C2_mean_of_per_image_statistics sq0 [some imgA, some imgB]).1 (by decide),
   (C2_mean_of_per_image_statistics sq0 [some imgA, some imgB]).2.2.1 (by decide)⟩

set_option maxRecDepth 100000 in
/-- C7 (counterexample): an image with exactly 10 frame pixels and exactly
5 tint pixels contributes nothing — the whole extraction equals the
no-image run, with default colours — refuting the claimed "10 or more" /
"5 or more" thresholds; one more pixel on each side (11 and 6) does
contribute, yielding the computed colours. -/
theorem C7_counterexample :
    (darkPixels img10).length = 10 ∧ (tintPixels img10).length = 5 ∧
    extract_glasses_properties true sq0 [some img10] =
      extract_glasses_properties true sq0 [] ∧
    (darkPixels img11).length = 11 ∧ (tintPixels img11).length = 6 ∧
    (extract_glasses_properties true sq0 [some img11]).frameColor = "#141414" ∧
    (extract_glasses_properties true sq0 [some img11]).lensColor = "#646464" := by
  refine ⟨?_, ?_, ?_, ?_, ?_, ?_, ?_⟩ <;> decide

/-- C7 (amended): an image contributes its frame statistics only when it
has strictly more than 10 frame pixels (exactly 10 is skipped) and a lens
colour only when it has strictly more than 5 tint pixels (exactly 5 is
skipped); the material decision requires strictly more than 10 collected
frame pixels and defaults to plastic with metalness 0.1 otherwise — and
since every contributing image brings at least 11 frame pixels, the
collected pool is either empty or of size at least 11, so the "at least
10" and "more than 10" readings agree on every reachable pool. -/
theorem C7_strict_thresholds :
    (∀ (img : ImgData) (rest : List (Option ImgData)),
      (darkPixels img).length ≤ 10 →
        (extractLoop (some img :: rest)).1 = (extractLoop rest).1 ∧
        (extractLoop (some img :: rest)).2.1 = (extractLoop rest).2.1) ∧
    (∀ (img : ImgData) (rest : List (Option ImgData)),
      11 ≤ (darkPixels img).length →
        (extractLoop (some img :: rest)).1 =
          truncRGB (chanMedian (darkPixels img)) :: (extractLoop rest).1 ∧
        (extractLoop (some img :: rest)).2.1 =
          darkPixels img ++ (extractLoop rest).2.1) ∧
    (∀ (img : ImgData) (rest : List (Option ImgData)),
      (tintPixels img).length ≤ 5 →
        (extractLoop (some img :: rest)).2.2 = (extractLoop rest).2.2) ∧
    (∀ (img : ImgData) (rest : List (Option ImgData)),
      6 ≤ (tintPixels img).length →
        (extractLoop (some img :: rest)).2.2 =
          truncRGB (chanMean (tintPixels img)) :: (extractLoop rest).2.2) ∧
    (∀ (sq : ℚ → ℚ) (fps : List RGB), fps.length ≤ 10 →
      materialDecision sq fps = ("plastic", 0.1)) ∧
    (∀ images : List (Option ImgData),
      (extractLoop images).2.1 = [] ∨ 11 ≤ (extractLoop images).2.1.length) := by
  refine ⟨fun img rest h => ?_, fun img rest h => ?_, fun img rest h => ?_,
          fun img rest h => ?_, fun sq fps h => ?_, fun images => ?_⟩
  · constructor <;> simp [extractLoop, Nat.not_lt.2 h]
  · constructor <;>
      simp [extractLoop, show 10 < (darkPixels img).length from by omega]
  · simp [extractLoop, Nat.not_lt.2 h]
  · simp [extractLoop, show 5 < (tintPixels img).length from by omega]
  · by_cases h1 : fps = []
    · simp [materialDecision, framePixelsArray, h1]
    · simp [materialDecision, framePixelsArray, h1,
        show ¬(fps.length > 10) from by omega]
  · induction images with
    | nil => exact Or.inl rfl
    | cons o rest ih =>
        cases o with
        | none => simpa [extractLoop] using ih
        | some img =>
            by_cases hd : (darkPixels img).length > 10
            · right
              simp only [extractLoop, if_pos hd, List.length_append]
              omega
            · simpa [extractLoop, hd] using ih

/-- C7 witness: the boundary images instantiate the skip at 10, the
contribution at 11, and the default material decision on a pool of 10. -/
theorem C7_strict_thresholds_witness :
    (extractLoop [some img10]).1 = (extractLoop []).1 ∧
    (extractLoop [some img11]).1 =
      truncRGB (chanMedian (darkPixels img11)) :: (extractLoop []).1 ∧
    materialDecision sq0 (List.replicate 10 ⟨20, 20, 20⟩) = ("plastic", 0.1) :=
  ⟨(C7_strict_thresholds.1 img10 [] (by decide)).1,
   (C7_strict_thresholds.2.1 img11 [] (by decide)).1,
   C7_strict_thresholds.2.2.2.2.1 sq0 (List.replicate 10 ⟨20, 20, 20⟩) (by decide)⟩

theorem round2_mono {x y : ℚ} (h : x ≤ y) : round2 x ≤ round2 y := by
  unfold round2
  have h1 : round (x * 100) ≤ round (y * 100) := by
    rw [round_eq, round_eq]
    exact Int.floor_le_floor (by linarith)
  have h2 : ((round (x * 100) : ℤ) : ℚ) ≤ ((round (y * 100) : ℤ) : ℚ) :=
    Int.cast_le.2 h1
  linarith

theorem round2_clamp_bounds (x : ℚ) :
    1/4 ≤ round2 (min 0.85 (max 0.25 x)) ∧ round2 (min 0.85 (max 0.25 x)) ≤ 17/20 := by
  have hlo : (1/4 : ℚ) ≤ min 0.85 (max 0.25 x) :=
    le_min (by norm_num) (le_trans (by norm_num) (le_max_left _ _))
  have hhi : min (0.85 : ℚ) (max 0.25 x) ≤ 17/20 :=
    le_trans (min_le_left _ _) (by norm_num)
  have e1 : round2 (1/4 : ℚ) = 1/4 := by decide
  have e2 : round2 (17/20 : ℚ) = 17/20 := by decide
  exact ⟨e1 ▸ round2_mono hlo, e2 ▸ round2_mono hhi⟩

theorem materialDecision_cases (sq : ℚ → ℚ) (fps : List RGB) :
    materialDecision sq fps = ("plastic", 0.1) ∨
      materialDecision sq fps = ("metal", 0.5) ∨
      materialDecision sq fps = ("metal", 0.7) := by
  simp only [materialDecision]
  split_ifs <;> simp

theorem hexDigitChar_mem {n : ℕ} (h : n < 16) : hexDigitChar n ∈ hexChars := by
  have hall : ∀ m, m < 16 → hexDigitChar m ∈ hexChars := by decide
  exact hall n h

theorem hexColor_data (p : RGB) :
    (hexColor p).data =
      ['#', hexDigitChar ((npToInt p.r).toNat / 16 % 16),
       hexDigitChar ((npToInt p.r).toNat % 16),
       hexDigitChar ((npToInt p.g).toNat / 16 % 16),
       hexDigitChar ((npToInt p.g).toNat % 16),
       hexDigitChar ((npToInt p.b).toNat / 16 % 16),
       hexDigitChar ((npToInt p.b).toNat % 16)] := rfl

theorem isHexColor_hexColor (p : RGB) : isHexColor (hexColor p) := by
  refine ⟨?_, ?_, ?_⟩
  · rw [hexColor_data]
    rfl
  · rw [hexColor_data]
    rfl
  · rw [hexColor_data]
    intro c hc
    simp only [List.tail_cons, List.mem_cons, List.not_mem_nil, or_false] at hc
    rcases hc with rfl | rfl | rfl | rfl | rfl | rfl <;>
      exact hexDigitChar_mem (Nat.mod_lt _ (by norm_num))

/-- C9: for every list of in-range RGB images, the extractor's lensColor
and frameColor match #rrggbb with six lowercase hex digits, tintOpacity
lies in [0.25, 0.85], frameMetalness is one of 0.1, 0.5, 0.7, and
frameMaterial is "plastic" exactly when the metalness is 0.1 and "metal"
exactly when it is 0.5 or 0.7. -/
theorem C9_output_invariants :
    ∀ (pilOk : Bool) (sq : ℚ → ℚ) (images : List (Option ImgData)),
      (∀ o ∈ images, ∀ img, o = some img → imgBounded img) →
      isHexColor (extract_glasses_properties pilOk sq images).lensColor ∧
      isHexColor (extract_glasses_properties pilOk sq images).frameColor ∧
      1/4 ≤ (extract_glasses_properties pilOk sq images).tintOpacity ∧
      (extract_glasses_properties pilOk sq images).tintOpacity ≤ 17/20 ∧
      ((extract_glasses_properties pilOk sq images).frameMetalness = 1/10 ∨
        (extract_glasses_properties pilOk sq images).frameMetalness = 1/2 ∨
        (extract_glasses_properties pilOk sq images).frameMetalness = 7/10) ∧
      ((extract_glasses_properties pilOk sq images).frameMaterial = "plastic" ↔
        (extract_glasses_properties pilOk sq images).frameMetalness = 1/10) ∧
      ((extract_glasses_properties pilOk sq images).frameMaterial = "metal" ↔
        ((extract_glasses_properties pilOk sq images).frameMetalness = 1/2 ∨
          (extract_glasses_properties pilOk sq images).frameMetalness = 7/10)) := by
  intro pilOk sq images hb
  by_cases hp : pilOk = true
  · subst hp
    rcases hE : extractLoop images with ⟨fcs, fps, lcs⟩
    rcases hm : materialDecision sq fps with ⟨mat, met⟩
    have hcases := materialDecision_cases sq fps
    rw [hm] at hcases
    have hrec : extract_glasses_properties true sq images =
        { lensColor := if lcs ≠ [] then hexColor (chanMean lcs) else "#3b82f6",
          frameColor := if fcs ≠ [] then hexColor (chanMean fcs) else "#1a1a1a",
          tintOpacity := round2 (if lcs ≠ [] then
            min 0.85 (max 0.25
              (hsvS ((npToInt (chanMean lcs).r : ℚ) / 255)
                ((npToInt (chanMean lcs).g : ℚ) / 255)
                ((npToInt (chanMean lcs).b : ℚ) / 255) * 0.5 + 0.3))
            else 0.5),
          frameScale := 1.0, frameMaterial := mat, frameMetalness := round2 met } := by
      simp only [extract_glasses_properties, hE, hm]
      by_cases hl : lcs = [] <;> simp [hl]
    rw [hrec]
    refine ⟨?_, ?_, ?_, ?_, ?_, ?_, ?_⟩
    · show isHexColor (if lcs ≠ [] then hexColor (chanMean lcs) else "#3b82f6")
      by_cases hl : lcs = []
      · rw [if_neg (by simp [hl])]
        decide
      · rw [if_pos hl]
        exact isHexColor_hexColor _
    · show isHexColor (if fcs ≠ [] then hexColor (chanMean fcs) else "#1a1a1a")
      by_cases hf : fcs = []
      · rw [if_neg (by simp [hf])]
        decide
      · rw [if_pos hf]
        exact isHexColor_hexColor _
    · show 1/4 ≤ round2 (if lcs ≠ [] then _ else 0.5)
      by_cases hl : lcs = []
      · rw [if_neg (by simp [hl])]
        decide
      · rw [if_pos hl]
        exact (round2_clamp_bounds _).1
    · show round2 (if lcs ≠ [] then _ else 0.5) ≤ 17/20
      by_cases hl : lcs = []
      · rw [if_neg (by simp [hl])]
        decide
      · rw [if_pos hl]
        exact (round2_clamp_bounds _).2
    · rcases hcases with h | h | h <;>
        (rw [Prod.mk.injEq] at h; obtain ⟨h1, h2⟩ := h; subst h2)
      · exact Or.inl (show round2 (0.1 : ℚ) = 1/10 by decide)
      · exact Or.inr (Or.inl (show round2 (0.5 : ℚ) = 1/2 by decide))
      · exact Or.inr (Or.inr (show round2 (0.7 : ℚ) = 7/10 by decide))
    · rcases hcases with h | h | h <;>
        (rw [Prod.mk.injEq] at h; obtain ⟨h1, h2⟩ := h; subst h1; subst h2)
      · exact iff_of_true rfl (show round2 (0.1 : ℚ) = 1/10 by decide)
      · exact iff_of_false (show ¬(("metal" : String) = "plastic") by decide)
          (show ¬(round2 (0.5 : ℚ) = 1/10) by decide)
      · exact iff_of_false (show ¬(("metal" : String) = "plastic") by decide)
          (show ¬(round2 (0.7 : ℚ) = 1/10) by decide)
    · rcases hcases with h | h | h <;>
        (rw [Prod.mk.injEq] at h; obtain ⟨h1, h2⟩ := h; subst h1; subst h2)
      · exact iff_of_false (show ¬(("plastic" : String) = "metal") by decide)
          (show ¬(round2 (0.1 : ℚ) = 1/2 ∨ round2 (0.1 : ℚ) = 7/10) by decide)
      · exact iff_of_true rfl (Or.inl (show round2 (0.5 : ℚ) = 1/2 by decide))
      · exact iff_of_true rfl (Or.inr (show round2 (0.7 : ℚ) = 7/10 by decide))
  · have hd : extract_glasses_properties pilOk sq images = defaultProfile := by
      simp [extract_glasses_properties, hp]
    rw [hd]
    decide

/-- C9 witness: the invariants evaluated on one concrete in-range image. -/
theorem C9_output_invariants_witness :
    isHexColor (extract_glasses_properties true sq0 [some imgA]).lensColor ∧
      isHexColor (extract_glasses_properties true sq0 [some imgA]).frameColor := by
  have hb : ∀ o ∈ [some imgA], ∀ img : ImgData, o = some img → imgBounded img := by
    intro o ho img he
    rw [List.mem_singleton] at ho
    subst ho
    injection he with h
    subst h
    decide
  exact ⟨(C9_output_invariants true sq0 [some imgA] hb).1,
         (C9_output_invariants true sq0 [some imgA] hb).2.1⟩
